import Mathlib

/-!
Shallow embedding of the Web-Crawling-Pipeline repository (Python) in Lean 4.

Each definition mirrors one function or code path of the source:
  * `src/utils/text_processor.py`   — content normalisation, hashing, dedup ledger
  * `src/crawlers/base_crawler.py`  — retrying fetcher `get_page`
  * `src/crawlers/dynamic/dynamic_crawler.py` — rendered-strategy `get_page`
  * `src/crawlers/static/static_crawler.py` — link extraction, crawl loop, summary
  * `src/storage/s3_storage.py`     — whole-object and streaming multipart uploads

External collaborators (the MD5 digest, Python `urllib.parse.urljoin`, the HTML
parser, the network, gzip's byte-level coder) are taken as parameters; the
surrounding control flow, buffering, trimming and bookkeeping are translated
line by line from the source.
-/

namespace WebCrawl

/-! ## Text processor (`src/utils/text_processor.py`) -/

/-- `chunk_size = 100000` used by `calculate_content_hash` (text_processor.py line 124). -/
def chunk_size : Nat := 100000

/-- Worker for `chunksBy`: the fuel argument (instantiated with the list's
length, which bounds the number of chunks) only makes the recursion
structural; it never runs out on the actual calls. -/
def chunksByGo (n : Nat) : Nat → List α → List (List α)
  | _, [] => []
  | 0, _ :: _ => []
  | fuel + 1, c :: cs =>
    if n = 0 then [] else (c :: cs).take n :: chunksByGo n fuel ((c :: cs).drop n)

/-- Split a list into consecutive chunks of `n` elements, mirroring
`range(0, len(text), n)` slicing.  (Degenerate `n = 0` yields `[]`; the source
only uses strictly positive chunk sizes.) -/
def chunksBy (n : Nat) (l : List α) : List (List α) := chunksByGo n l.length l

/-- The whitespace class of Python `str.split()` (restricted to the ASCII
whitespace characters). -/
def pyIsSpace (c : Char) : Bool :=
  c = ' ' ∨ c = '\t' ∨ c = '\n' ∨ c = '\x0d' ∨ c = '\x0b' ∨ c = '\x0c'

/-- Worker for `pySplit`: accumulates the current word (reversed) and emits it
when whitespace or the end of the input is reached; empty words are dropped,
exactly as Python `str.split()` with no separator argument does. -/
def pySplitGo (l : List Char) (acc : List Char) : List (List Char) :=
  match l with
  | [] => if acc.isEmpty then [] else [acc.reverse]
  | c :: cs =>
    if pyIsSpace c then
      if acc.isEmpty then pySplitGo cs [] else acc.reverse :: pySplitGo cs []
    else pySplitGo cs (c :: acc)

/-- Python `str.split()` (whitespace split, empty words discarded). -/
def pySplit (l : List Char) : List (List Char) := pySplitGo l []

/-- `' '.join(chunk.lower().split())` from text_processor.py line 130. -/
def normalizeChunk (c : List Char) : List Char :=
  List.intercalate [' '] (pySplit (c.map Char.toLower))

/-- The byte stream fed to the MD5 hasher by `calculate_content_hash`
(text_processor.py lines 123-131): the concatenation of the normalised
100000-character chunks of the text. -/
def normalizedInput (text : String) : String :=
  ⟨(chunksBy chunk_size text.data).map normalizeChunk |>.flatten⟩

/-- `calculate_content_hash` (text_processor.py lines 113-133); the MD5 digest
itself is an external primitive and is passed in as `md5`. -/
def calculate_content_hash (md5 : String → String) (text : String) : String :=
  md5 (normalizedInput text)

/-- `self.max_hashes = 10000` (text_processor.py line 28). -/
def max_hashes : Nat := 10000

/-- `is_duplicate` (text_processor.py lines 135-156) acting on the
`content_hashes` ledger, modelled as the insertion-ordered list of distinct
fingerprints; `list(set)[-max:]` keeps the most recent `max_hashes` entries.
Returns the duplicate verdict and the updated ledger. -/
def is_duplicate (md5 : String → String) (hashes : List String) (text : String) :
    Bool × List String :=
  let content_hash := calculate_content_hash md5 text
  let hashes := if max_hashes ≤ hashes.length
    then hashes.drop (hashes.length - max_hashes) else hashes
  if content_hash ∈ hashes then (true, hashes)
  else (false, hashes ++ [content_hash])

/-- Iterate `is_duplicate` over a sequence of texts, returning the final ledger. -/
def runDedup (md5 : String → String) (hashes : List String) : List String → List String
  | [] => hashes
  | t :: ts => runDedup md5 (is_duplicate md5 hashes t).2 ts

/-- Texts driving the dedup ledger past its nominal capacity: `"a"`, `"aa"`, …
(10001 pairwise distinct lowercase space-free strings). -/
def c2text (i : Nat) : String := ⟨List.replicate (i + 1) 'a'⟩

/-- A run of `max_hashes + 1` pairwise-distinct texts. -/
def c2texts : List String := (List.range (max_hashes + 1)).map c2text

/-- A ledger holding exactly `max_hashes` pairwise-distinct fingerprints —
an engine arriving exactly at capacity. -/
def c8ledger : List String := (List.range max_hashes).map c2text

/-! ## Retryable fetcher (`src/crawlers/base_crawler.py` lines 68-101 and
`src/crawlers/dynamic/dynamic_crawler.py` lines 32-80) -/

/-- `_respect_robots_txt` (base_crawler.py lines 42-54): placeholder, always `True`. -/
def respect_robots_txt (_url : String) : Bool := true

/-- The `for attempt in range(max_retries)` loop shared by both fetch
strategies.  `fetchAttempt k` is the outcome of the `k`-th network attempt
(`none` = an exception that the `except` clause catches).  Returns the result
together with the number of attempts performed. -/
def getPageLoop (fetchAttempt : Nat → Option String) : Nat → Nat → Option String × Nat
  | 0, attempts => (none, attempts)
  | n + 1, attempts =>
    match fetchAttempt attempts with
    | some html => (some html, attempts + 1)
    | none => getPageLoop fetchAttempt n (attempts + 1)

/-- `BaseCrawler.get_page` (base_crawler.py lines 68-101): robots gate, then up
to `max_retries` attempts; each `requests.RequestException` is caught and the
loop falls through to `return None`. -/
def get_page (max_retries : Nat) (fetchAttempt : Nat → Option String) (url : String) :
    Option String × Nat :=
  if ¬ respect_robots_txt url then (none, 0)
  else getPageLoop fetchAttempt max_retries 0

/-- `DynamicCrawler.get_page` (dynamic_crawler.py lines 32-80): identical retry
envelope, with the rendered-strategy attempt (`render k`) in place of the
direct request; every `Exception` is caught, and backoff timing does not affect
the result or the attempt count. -/
def dynamic_get_page (max_retries : Nat) (render : Nat → Option String) (url : String) :
    Option String × Nat :=
  if ¬ respect_robots_txt url then (none, 0)
  else getPageLoop render max_retries 0

/-! ## Static crawler (`src/crawlers/static/static_crawler.py`) -/

/-- Python `str.startswith` (Lean's `String.startsWith`), expressed
structurally on the character lists. -/
def strStartsWith (s p : String) : Bool := p.data.isPrefixOf s.data

/-- A fetched document, abstracted to what the crawl loop reads off it: the
`href` attributes of its anchor tags (in document order, as produced by the
HTML parser) and its extracted text. -/
structure Page where
  hrefs : List String
  text : String
deriving DecidableEq

/-- `extract_links` (static_crawler.py lines 38-72).  `urljoin` stands for
`urllib.parse.urljoin`; `self_base_url` is `self.base_url`; `base_url` is the
page URL passed at the call site.  Empty, anchor (`#…`) and `javascript:` hrefs
are skipped before resolution; resolved URLs are kept iff they start with
`self.base_url`. -/
def extract_links (urljoin : String → String → String) (self_base_url : String)
    (hrefs : List String) (base_url : String) : List String :=
  hrefs.filterMap (fun href =>
    if href = "" ∨ strStartsWith href "#" ∨ strStartsWith href "javascript:" then none
    else
      let absolute_url := urljoin base_url href
      if strStartsWith absolute_url self_base_url then some absolute_url else none)

/-- The link-offer loop of `text_data_generator` (static_crawler.py lines
299-302): each link is appended iff it is in neither `visited_urls` nor the
current `to_visit` (which includes links appended earlier in the same loop). -/
def offerLinks (visited : List String) (to_visit : List String) (links : List String) :
    List String :=
  links.foldl (fun acc link => if link ∉ visited ∧ link ∉ acc then acc ++ [link] else acc)
    to_visit

/-- The environment of one crawl: configuration plus the external collaborators
(resolver, digest, network).  `fetch k url` is the result of the `k`-th
`get_page` call of the run (`none` = all retries exhausted / falsy body). -/
structure CrawlEnv where
  base_url : String
  page_limit : Nat
  urljoin : String → String → String
  md5 : String → String
  fetch : Nat → String → Option Page

/-- The mutable state of `text_data_generator` (static_crawler.py lines
236-305): the frontier queue, the visited set (insertion-ordered),
the dedup ledger of the crawler's `TextProcessor`, the fetch history
(url, success) and the two counters.  `failed_crawls` mirrors
`self.metrics["failed_crawls"]`, initialised to 0 (line 35). -/
structure CrawlState where
  to_visit : List String
  visited_urls : List String
  content_hashes : List String
  trace : List (String × Bool)
  pages_processed : Nat
  failed_crawls : Nat

/-- One iteration of the `while` body of `text_data_generator` (static_crawler.py
lines 238-305): pop, skip if visited, fetch (skip on failure), mark visited,
dedup check (skip links/progress on duplicate), else count the page and offer
the extracted links. -/
def crawlStep (env : CrawlEnv) (s : CrawlState) : CrawlState :=
  match s.to_visit with
  | [] => s
  | url :: rest =>
    if url ∈ s.visited_urls then { s with to_visit := rest }
    else
      match env.fetch s.trace.length url with
      | none => { s with to_visit := rest, trace := s.trace ++ [(url, false)] }
      | some page =>
        let visited := s.visited_urls ++ [url]
        let trace := s.trace ++ [(url, true)]
        let dup := is_duplicate env.md5 s.content_hashes page.text
        if dup.1 then
          { s with to_visit := rest, visited_urls := visited,
                   content_hashes := dup.2, trace := trace }
        else
          let links := extract_links env.urljoin env.base_url page.hrefs url
          { s with to_visit := offerLinks visited rest links,
                   visited_urls := visited, content_hashes := dup.2, trace := trace,
                   pages_processed := s.pages_processed + 1 }

/-- The `while to_visit and len(self.visited_urls) < self.page_limit` guard
(static_crawler.py line 238). -/
def crawlGuard (env : CrawlEnv) (s : CrawlState) : Prop :=
  s.to_visit ≠ [] ∧ s.visited_urls.length < env.page_limit

instance (env : CrawlEnv) (s : CrawlState) : Decidable (crawlGuard env s) :=
  inferInstanceAs (Decidable (_ ∧ _))

/-- `n` guarded iterations of the crawl loop; once the guard fails the state is
stable, so `crawlIter env n s` for large `n` is the state in which the loop
exits. -/
def crawlIter (env : CrawlEnv) : Nat → CrawlState → CrawlState
  | 0, s => s
  | n + 1, s => if crawlGuard env s then crawlIter env n (crawlStep env s) else s

/-- The state at the top of `_crawl` (static_crawler.py lines 230-236 and
`__init__` lines 26-36): queue seeded with the base URL, everything else empty. -/
def initState (env : CrawlEnv) : CrawlState :=
  { to_visit := [env.base_url], visited_urls := [], content_hashes := [],
    trace := [], pages_processed := 0, failed_crawls := 0 }

/-- The URLs of the successful fetches of a trace, in order. -/
def successfulFetches (trace : List (String × Bool)) : List String :=
  trace.filterMap (fun e => if e.2 then some e.1 else none)

/-- The summary assembled by `_post_crawl_processing` (static_crawler.py lines
344-357): `total_pages` and `successful_crawls` are both set to
`len(self.visited_urls)`; `failed_crawls` is read from the metrics dictionary,
which no code path ever updates. -/
structure CrawlSummary where
  total_pages : Nat
  successful_crawls : Nat
  failed_crawls : Nat

/-- `_post_crawl_processing`'s summary (static_crawler.py lines 344-357). -/
def post_crawl_summary (s : CrawlState) : CrawlSummary :=
  { total_pages := s.visited_urls.length,
    successful_crawls := s.visited_urls.length,
    failed_crawls := s.failed_crawls }

/-! ## S3 storage (`src/storage/s3_storage.py`) -/

/-- The 5 MB buffer/part threshold (`max_buffer_size`, s3_storage.py line 441,
and `chunk_size`, line 245). -/
def s3_max_buffer_size : Nat := 5 * 1024 * 1024

instance {ε α : Type _} [DecidableEq ε] [DecidableEq α] : DecidableEq (Except ε α)
  | .error e₁, .error e₂ =>
    if h : e₁ = e₂ then isTrue (by rw [h]) else isFalse (fun hc => h (Except.error.inj hc))
  | .error _, .ok _ => isFalse (fun hc => Except.noConfusion hc)
  | .ok _, .error _ => isFalse (fun hc => Except.noConfusion hc)
  | .ok a₁, .ok a₂ =>
    if h : a₁ = a₂ then isTrue (by rw [h]) else isFalse (fun hc => h (Except.ok.inj hc))

/-- A gzip byte stream, abstracted to its sequence of members: per RFC 1952 the
concatenation of gzip streams is a gzip stream whose decompression is the
concatenation of the members' plaintexts. -/
structure Gz where
  members : List String
deriving DecidableEq

/-- `gzip.compress` of one plaintext: a single-member stream. -/
def gzip_compress (s : String) : Gz := ⟨[s]⟩

/-- `gzip.decompress` of a (possibly multi-member) stream. -/
def gzip_decompress (g : Gz) : String := String.join g.members

/-- Concatenation of stored gzip streams (what S3 does to the part bodies of a
completed multipart upload). -/
def gzJoin (gs : List Gz) : Gz := ⟨(gs.map Gz.members).flatten⟩

/-- `json.dumps` applied to a Python list, given the rendering of one element:
`"[" + ", ".join(...) + "]"` (the default separators of `json.dumps`). -/
def jsonDumpsList (dumps : α → String) (l : List α) : String :=
  "[" ++ String.intercalate ", " (l.map dumps) ++ "]"

/-- An open multipart-upload session held by the storage service. -/
structure MPSession (β : Type) where
  uploadId : Nat
  key : String
  parts : List (Nat × β)
deriving DecidableEq

/-- The storage service: committed objects (last write wins), open multipart
sessions, and the next fresh upload id. -/
structure S3State (β : Type) where
  objects : List (String × β)
  sessions : List (MPSession β)
  nextUploadId : Nat
deriving DecidableEq

/-- A bucket with no objects and no open sessions. -/
def S3State.empty : S3State β := ⟨[], [], 0⟩

/-- `put_object`: commit a whole object at `key`. -/
def putObject (key : String) (body : β) (st : S3State β) : S3State β :=
  { st with objects := st.objects ++ [(key, body)] }

/-- Read the (last-written) object at `key`, if any. -/
def getObject (key : String) (st : S3State β) : Option β :=
  (st.objects.reverse.find? (fun p => p.1 == key)).map (·.2)

/-- `create_multipart_upload`: open a session, returning its upload id. -/
def create_multipart_upload (key : String) (st : S3State β) : Nat × S3State β :=
  (st.nextUploadId,
   { st with sessions := st.sessions ++ [⟨st.nextUploadId, key, []⟩],
             nextUploadId := st.nextUploadId + 1 })

/-- `upload_part`: record a part body under its part number in the session. -/
def upload_part (uid : Nat) (pn : Nat) (body : β) (st : S3State β) : S3State β :=
  { st with sessions := st.sessions.map (fun ses =>
      if ses.uploadId = uid then { ses with parts := ses.parts ++ [(pn, body)] } else ses) }

/-- `abort_multipart_upload`: discard the session and its parts. -/
def abort_multipart_upload (uid : Nat) (st : S3State β) : S3State β :=
  { st with sessions := st.sessions.filter (fun ses => ses.uploadId != uid) }

/-- Modelled from the AWS S3 boundary (spec §6): `complete_multipart_upload`
combines the listed parts, in the listed order, into one object and closes the
session; a completion request naming zero parts (or an unknown session) is
rejected with a `ClientError`, and then changes nothing. -/
def complete_multipart_upload (combine : List β → β) (uid : Nat) (partNums : List Nat)
    (st : S3State β) : Except Unit (S3State β) :=
  match st.sessions.find? (fun ses => ses.uploadId == uid) with
  | none => .error ()
  | some ses =>
    if partNums.isEmpty then .error ()
    else
      let bodies := partNums.filterMap (fun n => (ses.parts.find? (fun p => p.1 == n)).map (·.2))
      .ok (putObject ses.key (combine bodies) (abort_multipart_upload uid st))

/-- The local variable names in scope in `stream_processed_text_data`
(s3_storage.py lines 407-525) when its `except ClientError` clause runs —
the names tested by `'UploadId' in locals()` (line 511). -/
def stream_ptd_locals : List String :=
  ["self", "source", "data_generator", "filename", "timestamp", "s3_key", "mpu",
   "parts", "part_number", "buffer", "buffer_size", "max_buffer_size", "chunk",
   "json_data", "compressed_data", "part", "e"]

/-- The local variable names in scope in `stream_raw_data` (s3_storage.py lines
189-289) when its `except ClientError` clause runs — the names tested by
`'UploadId' in locals()` (line 279). -/
def stream_raw_locals : List String :=
  ["self", "source", "data_generator", "filename", "timestamp", "s3_key",
   "all_data", "chunk", "json_data", "compressed_data", "mpu", "parts",
   "part_number", "chunk_size", "i", "part", "e"]

/-- The guard `'UploadId' in locals()` of s3_storage.py line 511. -/
def upload_id_in_locals : Bool := stream_ptd_locals.contains "UploadId"

/-- The guard `'UploadId' in locals()` of s3_storage.py line 279. -/
def upload_id_in_raw_locals : Bool := stream_raw_locals.contains "UploadId"

/-- The `except ClientError` handler of `stream_processed_text_data`
(s3_storage.py lines 509-522): abort the session only if the
`'UploadId' in locals()` guard passes. -/
def handleStreamError (uid : Nat) (st : S3State Gz) : S3State Gz :=
  if upload_id_in_locals then abort_multipart_upload uid st else st

/-- The `except ClientError` handler of `stream_raw_data` (s3_storage.py lines
277-289). -/
def handleRawStreamError (uid : Nat) (st : S3State (List Nat)) : S3State (List Nat) :=
  if upload_id_in_raw_locals then abort_multipart_upload uid st else st

/-- The `for chunk in data_generator` loop of `stream_processed_text_data`
(s3_storage.py lines 444-477): buffer each record, measure it with
`len(str(chunk))` (`size`), and when the running size reaches
`max_buffer_size`, gzip the JSON array of the buffer and upload it as the next
part.  `partErr pn` injects a `ClientError` raised by the `upload_part` call
for part `pn`; the error carries the state at the moment of the raise. -/
def ptdLoop (dumps : α → String) (size : α → Nat) (partErr : Nat → Bool) (uid : Nat) :
    List α → List Nat → Nat → List α → Nat → S3State Gz →
    Except (S3State Gz) (List Nat × Nat × List α × Nat × S3State Gz)
  | [], parts, part_number, buffer, buffer_size, st =>
    .ok (parts, part_number, buffer, buffer_size, st)
  | chunk :: rest, parts, part_number, buffer, buffer_size, st =>
    let buffer := buffer ++ [chunk]
    let buffer_size := buffer_size + size chunk
    if s3_max_buffer_size ≤ buffer_size then
      if partErr part_number then .error st
      else
        ptdLoop dumps size partErr uid rest (parts ++ [part_number]) (part_number + 1) [] 0
          (upload_part uid part_number (gzip_compress (jsonDumpsList dumps buffer)) st)
    else ptdLoop dumps size partErr uid rest parts part_number buffer buffer_size st

/-- `stream_processed_text_data` (s3_storage.py lines 407-525): open a
multipart session, stream the records through `ptdLoop`, flush the remaining
buffer as a final part, then complete the session.  `completeErr` injects a
`ClientError` raised by the `complete_multipart_upload` call; any error goes
through the `except ClientError` handler and is re-raised (`Except.error`). -/
def stream_processed_text_data (dumps : α → String) (size : α → Nat)
    (partErr : Nat → Bool) (completeErr : Bool) (key : String)
    (records : List α) (st : S3State Gz) : Except Unit String × S3State Gz :=
  let c := create_multipart_upload key st
  let uid := c.1
  match ptdLoop dumps size partErr uid records [] 1 [] 0 c.2 with
  | .error st' => (.error (), handleStreamError uid st')
  | .ok (parts, part_number, buffer, _, st') =>
    match (if buffer.isEmpty then Except.ok (parts, st')
           else if partErr part_number then Except.error st'
           else Except.ok (parts ++ [part_number],
             upload_part uid part_number (gzip_compress (jsonDumpsList dumps buffer)) st')) with
    | .error st'' => (.error (), handleStreamError uid st'')
    | .ok (parts', st'') =>
      if completeErr then (.error (), handleStreamError uid st'')
      else
        match complete_multipart_upload gzJoin uid parts' st'' with
        | .error _ => (.error (), handleStreamError uid st'')
        | .ok st''' => (.ok key, st''')

/-- `store_processed_text_data` (s3_storage.py lines 370-405): one
`put_object` of the gzipped JSON rendering of `data`. -/
def store_processed_text_data (serialize : γ → String) (key : String) (data : γ)
    (st : S3State Gz) : String × S3State Gz :=
  (key, putObject key (gzip_compress (serialize data)) st)

/-- The part-upload loop of `stream_raw_data`'s multipart branch (s3_storage.py
lines 248-264), over the 5 MB byte chunks of the compressed blob. -/
def rawLoop (partErr : Nat → Bool) (uid : Nat) :
    List (List Nat) → Nat → List Nat → S3State (List Nat) →
    Except (S3State (List Nat)) (List Nat × S3State (List Nat))
  | [], _, parts, st => .ok (parts, st)
  | chunk :: rest, part_number, parts, st =>
    if partErr part_number then .error st
    else rawLoop partErr uid rest (part_number + 1) (parts ++ [part_number])
      (upload_part uid part_number chunk st)

/-- Byte-level concatenation of completed raw parts. -/
def flattenBytes (bs : List (List Nat)) : List Nat := bs.flatten

/-- `stream_raw_data` (s3_storage.py lines 189-289): drain the generator first;
with zero records, return the key untouched ("No data to upload"); otherwise
gzip the JSON of the whole collection (`gz` is the byte-level
`gzip.compress ∘ encode`), use `put_object` below 5 MB, and a multipart upload
of 5 MB byte chunks above it. -/
def stream_raw_data (gz : String → List Nat) (dumps : List α → String)
    (partErr : Nat → Bool) (completeErr : Bool) (key : String)
    (records : List α) (st : S3State (List Nat)) :
    Except Unit String × S3State (List Nat) :=
  let all_data := records
  if all_data.isEmpty then (.ok key, st)
  else
    let compressed_data := gz (dumps all_data)
    if compressed_data.length < s3_max_buffer_size then
      (.ok key, putObject key compressed_data st)
    else
      let c := create_multipart_upload key st
      let uid := c.1
      match rawLoop partErr uid (chunksBy s3_max_buffer_size compressed_data) 1 [] c.2 with
      | .error st' => (.error (), handleRawStreamError uid st')
      | .ok (parts, st') =>
        if completeErr then (.error (), handleRawStreamError uid st')
        else
          match complete_multipart_upload flattenBytes uid parts st' with
          | .error _ => (.error (), handleRawStreamError uid st')
          | .ok st'' => (.ok key, st'')

/-! ## Concrete scenarios -/

/-- A three-page site: the seed links to `u` and `c`; `c` links to `u` again;
every fetch of `u` fails (all retries exhausted).  Link hrefs are already
absolute, so the resolver is the second projection. -/
def envC1 : CrawlEnv :=
  { base_url := "http://b/", page_limit := 10,
    urljoin := fun _ href => href, md5 := fun s => s,
    fetch := fun _ url =>
      if url = "http://b/" then some ⟨["http://b/u", "http://b/c"], "A"⟩
      else if url = "http://b/c" then some ⟨["http://b/u"], "B"⟩
      else none }

/-- `urllib.parse.urljoin` restricted to the inputs of the anchor scenario:
a fragment-only href resolves to the page URL plus the fragment. -/
def urljoin9 (base href : String) : String :=
  if strStartsWith href "#" then base ++ href else href

/-- A site whose seed page contains the single anchor link `#x`. -/
def envC9 : CrawlEnv :=
  { base_url := "http://b/", page_limit := 10, urljoin := urljoin9, md5 := fun s => s,
    fetch := fun _ url => if url = "http://b/" then some ⟨["#x"], "A"⟩ else none }

/-! # Dedup engine theorems -/

/-- Trimming the ledger (`list(set)[-max:]`) is the identity while the ledger
holds at most `max_hashes` fingerprints. -/
theorem dedup_trim_of_le {hashes : List String} (h : hashes.length ≤ max_hashes) :
    (if max_hashes ≤ hashes.length then hashes.drop (hashes.length - max_hashes) else hashes)
      = hashes := by
  split
  · have h0 : hashes.length - max_hashes = 0 := Nat.sub_eq_zero_of_le h
    simp [h0]
  · rfl

/-- One `is_duplicate` call keeps the ledger within `max_hashes + 1` entries
(the trim leaves at most `max_hashes`, then at most one fingerprint is added). -/
theorem dedup_step_bound (md5 : String → String) (hashes : List String) (t : String) :
    ((is_duplicate md5 hashes t).2).length ≤ max_hashes + 1 := by
  simp only [is_duplicate]
  set l := (if max_hashes ≤ hashes.length
      then hashes.drop (hashes.length - max_hashes) else hashes) with hl
  have htrim : l.length ≤ max_hashes := by
    rw [hl]
    split
    · rename_i hle
      simp only [List.length_drop]
      omega
    · rename_i hlt
      omega
  by_cases hmem : calculate_content_hash md5 t ∈ l
  · rw [if_pos hmem]
    exact htrim.trans (Nat.le_succ _)
  · rw [if_neg hmem]
    simp only [List.length_append, List.length_singleton]
    omega

/-- C2 (amended): the ledger never exceeds `max_hashes + 1` fingerprints, and a
call arriving with the ledger strictly above the nominal capacity (at
`max_hashes + 1`) evicts the oldest entry before testing and inserting; a call
arriving at exactly `max_hashes` inserts without evicting, which is how the
ledger reaches `max_hashes + 1`. -/
theorem dedup_ledger_bound_amended (md5 : String → String) (hashes : List String)
    (ts : List String) (t : String) (h : hashes.length ≤ max_hashes + 1) :
    (runDedup md5 hashes ts).length ≤ max_hashes + 1 ∧
    (hashes.length = max_hashes + 1 →
      (is_duplicate md5 hashes t).2 =
        (if calculate_content_hash md5 t ∈ hashes.drop 1 then hashes.drop 1
         else hashes.drop 1 ++ [calculate_content_hash md5 t])) := by
  constructor
  · induction ts generalizing hashes with
    | nil => simpa [runDedup] using h
    | cons t' ts ih =>
      simp only [runDedup]
      exact ih _ (dedup_step_bound md5 hashes t')
  · intro hlen
    have hle : max_hashes ≤ hashes.length := by omega
    have h1 : hashes.length - max_hashes = 1 := by omega
    simp only [is_duplicate, if_pos hle, h1]
    split <;> rfl

/-- Witness for the amended capacity bound at a concrete ledger. -/
theorem dedup_ledger_bound_amended_witness :
    ([] : List String).length ≤ max_hashes + 1 ∧
    ((runDedup (fun s => s) [] ["x"]).length ≤ max_hashes + 1 ∧
     (([] : List String).length = max_hashes + 1 →
       (is_duplicate (fun s => s) [] "y").2 =
         (if calculate_content_hash (fun s => s) "y" ∈ ([] : List String).drop 1
          then ([] : List String).drop 1
          else ([] : List String).drop 1 ++ [calculate_content_hash (fun s => s) "y"]))) :=
  ⟨by simp, dedup_ledger_bound_amended (fun s => s) [] ["x"] "y" (by simp)⟩

/-- `str.split()` of a chunk containing no whitespace is the single word. -/
theorem pySplitGo_of_no_space :
    ∀ (l acc : List Char), (∀ c ∈ l, pyIsSpace c = false) →
      pySplitGo l acc = if acc.reverse ++ l = [] then [] else [acc.reverse ++ l] := by
  intro l
  induction l with
  | nil =>
    intro acc _
    simp [pySplitGo, List.isEmpty_iff]
  | cons c cs ih =>
    intro acc hns
    have hc : pyIsSpace c = false := hns c (by simp)
    simp only [pySplitGo, hc, Bool.false_eq_true, if_false]
    rw [ih (c :: acc) (fun x hx => hns x (by simp [hx]))]
    simp [List.reverse_cons, List.append_assoc]

/-- Normalisation fixes a nonempty chunk of lowercase non-whitespace characters. -/
theorem normalizeChunk_id (l : List Char) (hne : l ≠ [])
    (hl : ∀ c ∈ l, Char.toLower c = c ∧ pyIsSpace c = false) :
    normalizeChunk l = l := by
  have hmap : l.map Char.toLower = l := by
    rw [List.map_congr_left (fun c hc => (hl c hc).1)]
    exact List.map_id l
  unfold normalizeChunk pySplit
  rw [hmap, pySplitGo_of_no_space l [] (fun c hc => (hl c hc).2)]
  simp only [List.reverse_nil, List.nil_append, if_neg hne]
  simp [List.intercalate]

/-- A nonempty list of at most `n` elements forms a single chunk. -/
theorem chunksBy_of_le (n : Nat) (l : List Char) (hne : l ≠ []) (hlen : l.length ≤ n)
    (hn : n ≠ 0) : chunksBy n l = [l] := by
  match l with
  | c :: cs =>
    show chunksByGo n (c :: cs).length (c :: cs) = [c :: cs]
    rw [List.length_cons, chunksByGo]
    rw [if_neg hn, List.take_of_length_le hlen, List.drop_eq_nil_of_le hlen]
    rw [chunksByGo]

/-- The hasher input equals the text itself for short, already-normalised texts. -/
theorem normalizedInput_id (l : List Char) (hne : l ≠ []) (hlen : l.length ≤ chunk_size)
    (hl : ∀ c ∈ l, Char.toLower c = c ∧ pyIsSpace c = false) :
    normalizedInput ⟨l⟩ = ⟨l⟩ := by
  unfold normalizedInput
  rw [show (String.mk l).data = l from rfl,
      chunksBy_of_le chunk_size l hne hlen (by norm_num [chunk_size]),
      List.map_singleton, normalizeChunk_id l hne hl]
  simp

/-- With the identity digest, the fingerprint of `c2text i` is `c2text i`. -/
theorem hash_c2text (i : Nat) (h : i + 1 ≤ chunk_size) :
    calculate_content_hash (fun s => s) (c2text i) = c2text i := by
  show normalizedInput (c2text i) = c2text i
  apply normalizedInput_id
  · simp
  · simpa using h
  · intro c hc
    rw [List.eq_of_mem_replicate hc]
    exact ⟨by decide, by decide⟩

/-- Distinct indices give distinct driver texts. -/
theorem c2text_inj : Function.Injective c2text := by
  intro i j hij
  have hdata : List.replicate (i + 1) 'a' = List.replicate (j + 1) 'a' := by
    injection hij
  have hlen := congrArg List.length hdata
  simp only [List.length_replicate] at hlen
  omega

/-- The 10001 driver texts are pairwise distinct. -/
theorem c2texts_nodup : c2texts.Nodup := by
  unfold c2texts
  exact List.Nodup.map c2text_inj (List.nodup_range _)

/-- Feeding pairwise-fresh fingerprints into a ledger that stays within
`max_hashes + 1` entries just appends them all (no trim fires destructively,
no duplicate is detected). -/
theorem runDedup_fresh (md5 : String → String) :
    ∀ (ts hashes : List String),
      (hashes ++ ts.map (calculate_content_hash md5)).Nodup →
      hashes.length + ts.length ≤ max_hashes + 1 →
      runDedup md5 hashes ts = hashes ++ ts.map (calculate_content_hash md5) := by
  intro ts
  induction ts with
  | nil =>
    intro hashes _ _
    simp [runDedup]
  | cons t ts ih =>
    intro hashes hnd hlen
    have hch : calculate_content_hash md5 t ∉ hashes := by
      intro hmem
      rcases List.nodup_append.mp hnd with ⟨-, -, hdisj⟩
      exact hdisj hmem (by simp)
    have hle : hashes.length ≤ max_hashes := by
      simp only [List.length_cons] at hlen
      have hm : 1 ≤ max_hashes := by norm_num [max_hashes]
      omega
    have hstep : is_duplicate md5 hashes t =
        (false, hashes ++ [calculate_content_hash md5 t]) := by
      simp only [is_duplicate]
      rw [dedup_trim_of_le hle, if_neg hch]
    simp only [runDedup, hstep]
    rw [ih (hashes ++ [calculate_content_hash md5 t])
          (by simpa [List.append_assoc] using hnd)
          (by simp only [List.length_append, List.length_singleton, List.length_nil,
                List.length_cons] at hlen ⊢; omega)]
    simp [List.append_assoc]

/-- C2 (counterexample): after the 10001 pairwise-distinct texts of `c2texts`,
the ledger of one Dedup Engine instance holds `max_hashes + 1 = 10001`
fingerprints — the claimed invariant `|seen| ≤ max_hashes` is false, and in
particular the call arriving with the ledger exactly at capacity inserted
without evicting. -/
theorem dedup_ledger_exceeds_capacity :
    ¬ ((runDedup (fun s => s) [] c2texts).length ≤ max_hashes) := by
  have hmap : c2texts.map (calculate_content_hash (fun s => s)) = c2texts := by
    unfold c2texts
    rw [List.map_map]
    apply List.map_congr_left
    intro i hi
    have hi' : i < max_hashes + 1 := List.mem_range.mp hi
    exact hash_c2text i (by norm_num [max_hashes] at hi'; norm_num [chunk_size]; omega)
  have hrun : runDedup (fun s => s) [] c2texts = c2texts := by
    rw [runDedup_fresh (fun s => s) c2texts []
          (by simpa [hmap] using c2texts_nodup)
          (by simp [c2texts])]
    simpa using hmap
  rw [hrun]
  simp [c2texts]

/-- The at-capacity ledger holds exactly `max_hashes` fingerprints. -/
theorem c8ledger_length : c8ledger.length = max_hashes := by
  simp [c8ledger]

/-- The 10001st driver text is fresh for the at-capacity ledger. -/
theorem c2text_max_not_mem_c8ledger : c2text max_hashes ∉ c8ledger := by
  intro hmem
  rcases List.mem_map.mp hmem with ⟨i, hi, hEq⟩
  have hij := c2text_inj hEq
  have hi' := List.mem_range.mp hi
  omega

/-- First check of the fresh text on the at-capacity ledger: the trim
(`list(set)[-max_hashes:]` of a `max_hashes`-sized set) keeps everything under
any enumeration order, the fingerprint is unseen, so the call answers `false`
and inserts it. -/
theorem c8_first_call :
    is_duplicate (fun s => s) c8ledger (c2text max_hashes) =
      (false, c8ledger ++ [c2text max_hashes]) := by
  have hhash := hash_c2text max_hashes (by norm_num [chunk_size, max_hashes])
  simp only [is_duplicate, hhash, c8ledger_length, le_refl, if_true, Nat.sub_self,
    List.drop_zero]
  rw [if_neg c2text_max_not_mem_c8ledger]

/-- Second check, after the set of `max_hashes + 1` fingerprints is
re-enumerated with the fresh fingerprint first: the destructive trim drops
exactly it, so the call answers `false` again. -/
theorem c8_second_call :
    is_duplicate (fun s => s) (c2text max_hashes :: c8ledger) (c2text max_hashes) =
      (false, c8ledger ++ [c2text max_hashes]) := by
  have hhash := hash_c2text max_hashes (by norm_num [chunk_size, max_hashes])
  have hlen : (c2text max_hashes :: c8ledger).length = max_hashes + 1 := by
    simp [c8ledger_length]
  simp only [is_duplicate, hhash, hlen]
  rw [if_pos (by omega : max_hashes ≤ max_hashes + 1),
      (by omega : max_hashes + 1 - max_hashes = 1), List.drop_succ_cons, List.drop_zero]
  rw [if_neg c2text_max_not_mem_c8ledger]

/-- C8 (counterexample): on an engine arriving exactly at capacity that has
never seen `T`'s fingerprint, the first check answers `false` and inserts the
fingerprint (reaching `max_hashes + 1`); the second check with the same text
operates on the same set under a legitimate enumeration order — the fresh
fingerprint listed first — and its destructive truncation evicts exactly that
fingerprint, so the second call answers `false`, not `true`: the claimed
universal "false then true" fails. -/
theorem dedup_second_call_false_at_capacity :
    calculate_content_hash (fun s => s) (c2text max_hashes) ∉ c8ledger ∧
    (is_duplicate (fun s => s) c8ledger (c2text max_hashes)).1 = false ∧
    ((is_duplicate (fun s => s) c8ledger (c2text max_hashes)).2).Perm
      (c2text max_hashes :: c8ledger) ∧
    (is_duplicate (fun s => s) (c2text max_hashes :: c8ledger) (c2text max_hashes)).1 =
      false := by
  have hhash := hash_c2text max_hashes (by norm_num [chunk_size, max_hashes])
  refine ⟨?_, ?_, ?_, ?_⟩
  · rw [hhash]
    exact c2text_max_not_mem_c8ledger
  · rw [c8_first_call]
  · rw [c8_first_call]
    exact List.perm_append_singleton _ _
  · rw [c8_second_call]

/-- C8 (amended): on an engine strictly below capacity that has not seen
`T`'s fingerprint, checking `T` twice answers `false` then `true`, for every
enumeration order `s'` the ledger set may take between the two calls (below
capacity neither call truncates destructively, and at exactly `max_hashes` the
trim keeps the whole set whatever the order).  The counterexample shows the
guarantee is lost for an engine arriving exactly at capacity. -/
theorem dedup_false_then_true_below_capacity (md5 : String → String)
    (hashes : List String) (T : String) (s' : List String)
    (h : calculate_content_hash md5 T ∉ hashes)
    (hlen : hashes.length < max_hashes)
    (hperm : ((is_duplicate md5 hashes T).2).Perm s') :
    (is_duplicate md5 hashes T).1 = false ∧ (is_duplicate md5 s' T).1 = true := by
  have hstep : is_duplicate md5 hashes T =
      (false, hashes ++ [calculate_content_hash md5 T]) := by
    simp only [is_duplicate]
    rw [dedup_trim_of_le (le_of_lt hlen), if_neg h]
  rw [hstep] at hperm
  refine ⟨by rw [hstep], ?_⟩
  have hmem : calculate_content_hash md5 T ∈ s' := hperm.mem_iff.mp (by simp)
  have hslen : s'.length ≤ max_hashes := by
    rw [← hperm.length_eq]
    simp only [List.length_append, List.length_singleton]
    omega
  simp only [is_duplicate]
  rw [dedup_trim_of_le hslen, if_pos hmem]

/-- Witness: on the empty ledger (re-enumerated identically), checking `"T"`
twice yields `false` then `true`. -/
theorem dedup_false_then_true_below_capacity_witness :
    (calculate_content_hash (fun s => s) "T" ∉ ([] : List String) ∧
     ([] : List String).length < max_hashes ∧
     ((is_duplicate (fun s => s) [] "T").2).Perm ((is_duplicate (fun s => s) [] "T").2)) ∧
    ((is_duplicate (fun s => s) [] "T").1 = false ∧
     (is_duplicate (fun s => s) (is_duplicate (fun s => s) [] "T").2 "T").1 = true) :=
  ⟨⟨List.not_mem_nil _, by decide, List.Perm.refl _⟩,
   dedup_false_then_true_below_capacity (fun s => s) [] "T"
     (is_duplicate (fun s => s) [] "T").2 (List.not_mem_nil _) (by decide)
     (List.Perm.refl _)⟩

/-! # Retryable fetcher theorems -/

/-- When every attempt fails, the retry loop performs one attempt per fuel unit
and returns `none`. -/
theorem getPageLoop_all_fail (fetchAttempt : Nat → Option String)
    (h : ∀ i, fetchAttempt i = none) :
    ∀ (n k : Nat), getPageLoop fetchAttempt n k = (none, k + n) := by
  intro n
  induction n with
  | zero => intro k; simp [getPageLoop]
  | succ n ih =>
    intro k
    simp only [getPageLoop, h k]
    rw [ih (k + 1)]
    congr 1
    omega

/-- C5: for a fetch whose attempts always fail, both `BaseCrawler.get_page` and
`DynamicCrawler.get_page` perform exactly `max_retries` attempts and return the
caught-failure value `none` (never propagating the per-attempt exception). -/
theorem get_page_retry_ceiling (max_retries : Nat) (fetchAttempt : Nat → Option String)
    (url : String) (h : ∀ i, fetchAttempt i = none) :
    get_page max_retries fetchAttempt url = (none, max_retries) ∧
    dynamic_get_page max_retries fetchAttempt url = (none, max_retries) := by
  have hloop := getPageLoop_all_fail fetchAttempt h max_retries 0
  rw [Nat.zero_add] at hloop
  exact ⟨by simpa [get_page, respect_robots_txt] using hloop,
         by simpa [dynamic_get_page, respect_robots_txt] using hloop⟩

/-- Witness: with `max_retries = 3` and an always-failing fetch, exactly 3
attempts occur and the result is failure. -/
theorem get_page_retry_ceiling_witness :
    (∀ i : Nat, (fun _ : Nat => (none : Option String)) i = none) ∧
    (get_page 3 (fun _ => none) "http://x/" = (none, 3) ∧
     dynamic_get_page 3 (fun _ => none) "http://x/" = (none, 3)) :=
  ⟨fun _ => rfl, get_page_retry_ceiling 3 (fun _ => none) "http://x/" (fun _ => rfl)⟩

/-! # Crawl loop theorems -/

/-- Successful-fetch extraction distributes over trace concatenation. -/
theorem successfulFetches_append (t₁ t₂ : List (String × Bool)) :
    successfulFetches (t₁ ++ t₂) = successfulFetches t₁ ++ successfulFetches t₂ := by
  simp [successfulFetches, List.filterMap_append]

/-- Popping an already-visited URL only shortens the queue. -/
theorem crawlStep_eq_skip (env : CrawlEnv) (s : CrawlState) (url : String)
    (rest : List String) (hts : s.to_visit = url :: rest) (hv : url ∈ s.visited_urls) :
    crawlStep env s = { s with to_visit := rest } := by
  simp only [crawlStep, hts]
  rw [if_pos hv]

/-- A failed fetch (all retries exhausted) records the failure and moves on:
the URL is neither marked visited nor re-queued by this iteration. -/
theorem crawlStep_eq_fail (env : CrawlEnv) (s : CrawlState) (url : String)
    (rest : List String) (hts : s.to_visit = url :: rest) (hv : url ∉ s.visited_urls)
    (hf : env.fetch s.trace.length url = none) :
    crawlStep env s = { s with to_visit := rest, trace := s.trace ++ [(url, false)] } := by
  simp only [crawlStep, hts]
  rw [if_neg hv, hf]

/-- A successful fetch of duplicate content marks the URL visited and updates
the ledger, but discovers no links and counts no page. -/
theorem crawlStep_eq_dup (env : CrawlEnv) (s : CrawlState) (url : String)
    (rest : List String) (page : Page) (hts : s.to_visit = url :: rest)
    (hv : url ∉ s.visited_urls) (hf : env.fetch s.trace.length url = some page)
    (hd : (is_duplicate env.md5 s.content_hashes page.text).1 = true) :
    crawlStep env s =
      { s with to_visit := rest, visited_urls := s.visited_urls ++ [url],
               content_hashes := (is_duplicate env.md5 s.content_hashes page.text).2,
               trace := s.trace ++ [(url, true)] } := by
  simp only [crawlStep, hts]
  rw [if_neg hv, hf]
  simp only [hd, if_true]

/-- A successful fetch of fresh content marks the URL visited, counts the page
and offers the extracted links. -/
theorem crawlStep_eq_success (env : CrawlEnv) (s : CrawlState) (url : String)
    (rest : List String) (page : Page) (hts : s.to_visit = url :: rest)
    (hv : url ∉ s.visited_urls) (hf : env.fetch s.trace.length url = some page)
    (hd : (is_duplicate env.md5 s.content_hashes page.text).1 = false) :
    crawlStep env s =
      { s with to_visit := offerLinks (s.visited_urls ++ [url]) rest
                 (extract_links env.urljoin env.base_url page.hrefs url),
               visited_urls := s.visited_urls ++ [url],
               content_hashes := (is_duplicate env.md5 s.content_hashes page.text).2,
               trace := s.trace ++ [(url, true)],
               pages_processed := s.pages_processed + 1 } := by
  simp only [crawlStep, hts]
  rw [if_neg hv, hf]
  simp only [hd, Bool.false_eq_true, if_false]

/-- One crawl iteration preserves the loop invariant: the visited set is
exactly the list of successfully fetched URLs, without repetition. -/
theorem crawlStep_inv (env : CrawlEnv) (s : CrawlState)
    (h : s.visited_urls = successfulFetches s.trace ∧ s.visited_urls.Nodup) :
    (crawlStep env s).visited_urls = successfulFetches (crawlStep env s).trace ∧
    (crawlStep env s).visited_urls.Nodup := by
  obtain ⟨h1, h2⟩ := h
  rcases hts : s.to_visit with - | ⟨url, rest⟩
  · simpa [crawlStep, hts] using ⟨h1, h2⟩
  · by_cases hv : url ∈ s.visited_urls
    · rw [crawlStep_eq_skip env s url rest hts hv]
      exact ⟨h1, h2⟩
    · rcases hf : env.fetch s.trace.length url with - | page
      · rw [crawlStep_eq_fail env s url rest hts hv hf]
        refine ⟨?_, h2⟩
        rw [successfulFetches_append]
        simpa [successfulFetches] using h1
      · have hmark : s.visited_urls ++ [url] = successfulFetches (s.trace ++ [(url, true)]) ∧
            (s.visited_urls ++ [url]).Nodup := by
          constructor
          · rw [successfulFetches_append]
            simp [successfulFetches, h1]
          · simp [List.nodup_append, h2, hv]
        by_cases hd : (is_duplicate env.md5 s.content_hashes page.text).1
        · rw [crawlStep_eq_dup env s url rest page hts hv hf hd]
          exact hmark
        · rw [crawlStep_eq_success env s url rest page hts hv hf
                (Bool.not_eq_true _ ▸ eq_false_of_ne_true hd)]
          exact hmark

/-- The loop invariant holds after any number of iterations from the start state. -/
theorem crawlIter_inv (env : CrawlEnv) :
    ∀ (n : Nat) (s : CrawlState),
      (s.visited_urls = successfulFetches s.trace ∧ s.visited_urls.Nodup) →
      ((crawlIter env n s).visited_urls = successfulFetches (crawlIter env n s).trace ∧
       (crawlIter env n s).visited_urls.Nodup) := by
  intro n
  induction n with
  | zero => intro s h; simpa [crawlIter] using h
  | succ n ih =>
    intro s h
    simp only [crawlIter]
    split
    · exact ih _ (crawlStep_inv env s h)
    · exact h

/-- The `failed_crawls` metric is never modified by the crawl loop. -/
theorem crawlStep_failed_crawls (env : CrawlEnv) (s : CrawlState) :
    (crawlStep env s).failed_crawls = s.failed_crawls := by
  rcases hts : s.to_visit with - | ⟨url, rest⟩
  · simp [crawlStep, hts]
  · by_cases hv : url ∈ s.visited_urls
    · simp [crawlStep, hts, hv]
    · rcases hf : env.fetch s.trace.length url with - | page
      · simp [crawlStep, hts, hv, hf]
      · by_cases hd : (is_duplicate env.md5 s.content_hashes page.text).1
        · simp [crawlStep, hts, hv, hf, hd]
        · simp [crawlStep, hts, hv, hf, hd]

/-- `failed_crawls` stays at its initial value across iterations. -/
theorem crawlIter_failed_crawls (env : CrawlEnv) :
    ∀ (n : Nat) (s : CrawlState), (crawlIter env n s).failed_crawls = s.failed_crawls := by
  intro n
  induction n with
  | zero => intro s; simp [crawlIter]
  | succ n ih =>
    intro s
    simp only [crawlIter]
    split
    · rw [ih _, crawlStep_failed_crawls]
    · rfl

/-- C10: whatever the fetch outcomes, the persisted summary reports
`total_pages` and `successful_crawls` both equal to the final size of the
visited set and `failed_crawls = 0`; the visited set counts exactly the
successful fetches (duplicate pages included), never the failed attempts. -/
theorem post_crawl_summary_reports (env : CrawlEnv) (n : Nat) :
    post_crawl_summary (crawlIter env n (initState env)) =
      { total_pages := (crawlIter env n (initState env)).visited_urls.length,
        successful_crawls := (crawlIter env n (initState env)).visited_urls.length,
        failed_crawls := 0 } ∧
    (crawlIter env n (initState env)).visited_urls.length =
      (successfulFetches (crawlIter env n (initState env)).trace).length := by
  constructor
  · have hf : (crawlIter env n (initState env)).failed_crawls = 0 :=
      crawlIter_failed_crawls env n (initState env)
    simp [post_crawl_summary, hf]
  · have h := crawlIter_inv env n (initState env) (by simp [initState, successfulFetches])
    rw [h.1]

/-- Each guarded iteration either shortens the queue without visiting, or
visits one new URL. -/
theorem crawlStep_progress (env : CrawlEnv) (s : CrawlState) (hg : crawlGuard env s) :
    ((crawlStep env s).visited_urls = s.visited_urls ∧
     (crawlStep env s).to_visit.length + 1 = s.to_visit.length) ∨
    (crawlStep env s).visited_urls.length = s.visited_urls.length + 1 := by
  rcases hts : s.to_visit with - | ⟨url, rest⟩
  · exact absurd hts hg.1
  · by_cases hv : url ∈ s.visited_urls
    · rw [crawlStep_eq_skip env s url rest hts hv]
      left
      simp [hts]
    · rcases hf : env.fetch s.trace.length url with - | page
      · rw [crawlStep_eq_fail env s url rest hts hv hf]
        left
        simp [hts]
      · by_cases hd : (is_duplicate env.md5 s.content_hashes page.text).1
        · rw [crawlStep_eq_dup env s url rest page hts hv hf hd]
          right
          simp
        · rw [crawlStep_eq_success env s url rest page hts hv hf
                (Bool.not_eq_true _ ▸ eq_false_of_ne_true hd)]
          right
          simp

/-- A guarded iteration grows the visited set by at most one URL. -/
theorem crawlStep_visited_le (env : CrawlEnv) (s : CrawlState) :
    (crawlStep env s).visited_urls.length ≤ s.visited_urls.length + 1 := by
  rcases hts : s.to_visit with - | ⟨url, rest⟩
  · simp [crawlStep, hts]
  · by_cases hv : url ∈ s.visited_urls
    · rw [crawlStep_eq_skip env s url rest hts hv]
      exact Nat.le_succ _
    · rcases hf : env.fetch s.trace.length url with - | page
      · rw [crawlStep_eq_fail env s url rest hts hv hf]
        exact Nat.le_succ _
      · by_cases hd : (is_duplicate env.md5 s.content_hashes page.text).1
        · rw [crawlStep_eq_dup env s url rest page hts hv hf hd]
          simp
        · rw [crawlStep_eq_success env s url rest page hts hv hf
                (Bool.not_eq_true _ ▸ eq_false_of_ne_true hd)]
          simp

/-- The visited set never outgrows the page limit, from any state within it. -/
theorem crawlIter_visited_le (env : CrawlEnv) :
    ∀ (n : Nat) (s : CrawlState), s.visited_urls.length ≤ env.page_limit →
      (crawlIter env n s).visited_urls.length ≤ env.page_limit := by
  intro n
  induction n with
  | zero => intro s h; simpa [crawlIter] using h
  | succ n ih =>
    intro s h
    simp only [crawlIter]
    split
    · rename_i hg
      refine ih _ ?_
      have h1 := crawlStep_visited_le env s
      have h2 := hg.2
      omega
    · exact h

/-- Double induction on the remaining page budget and the queue length: the
guard eventually fails. -/
theorem crawl_term_aux (env : CrawlEnv) :
    ∀ (a : Nat), ∀ (b : Nat) (s : CrawlState),
      env.page_limit - s.visited_urls.length ≤ a → s.to_visit.length ≤ b →
      ∃ n, ¬ crawlGuard env (crawlIter env n s) := by
  intro a
  induction a with
  | zero =>
    intro b s ha _
    refine ⟨0, fun hg => ?_⟩
    simp only [crawlIter] at hg
    have := hg.2
    omega
  | succ a iha =>
    intro b
    induction b with
    | zero =>
      intro s _ hb
      refine ⟨0, fun hg => ?_⟩
      simp only [crawlIter] at hg
      exact hg.1 (List.length_eq_zero.mp (Nat.le_zero.mp hb))
    | succ b ihb =>
      intro s ha hb
      by_cases hg : crawlGuard env s
      · have hnext : ∃ n, ¬ crawlGuard env (crawlIter env n (crawlStep env s)) := by
          rcases crawlStep_progress env s hg with ⟨hsame, hlen⟩ | hgrow
          · exact ihb (crawlStep env s) (by rw [hsame]; exact ha) (by omega)
          · refine iha (crawlStep env s).to_visit.length (crawlStep env s) ?_ le_rfl
            have := hg.2
            omega
        obtain ⟨n, hn⟩ := hnext
        refine ⟨n + 1, ?_⟩
        simpa [crawlIter, hg] using hn
      · exact ⟨0, hg⟩

/-- C7: for every crawl configuration (every finitely-branching link graph)
and limit, the loop's guard eventually fails — the crawl terminates — and the
visited set never holds more than `page_limit` URLs at any step. -/
theorem crawl_terminates_within_limit (env : CrawlEnv) :
    (∀ n, (crawlIter env n (initState env)).visited_urls.length ≤ env.page_limit) ∧
    (∃ n, ¬ crawlGuard env (crawlIter env n (initState env))) := by
  constructor
  · intro n
    exact crawlIter_visited_le env n (initState env) (by simp [initState])
  · exact crawl_term_aux env env.page_limit (initState env).to_visit.length
      (initState env) (by omega) le_rfl

/-- C1 (amended): no URL is ever successfully fetched twice in a run (the
successful entries of the fetch trace are duplicate-free), and a URL whose
fetch exhausts all retries is skipped — the failing iteration leaves the
visited set untouched (the URL is NOT marked visited), removes the URL from
the queue without re-queueing it, and the loop continues.  (Such a URL may be
offered and fetched again if a later page links to it.) -/
theorem crawl_failure_skip_no_success_refetch (env : CrawlEnv) (n : Nat)
    (s : CrawlState) (url : String) (rest : List String)
    (hts : s.to_visit = url :: rest) (hv : url ∉ s.visited_urls)
    (hf : env.fetch s.trace.length url = none) :
    (successfulFetches (crawlIter env n (initState env)).trace).Nodup ∧
    crawlStep env s = { s with to_visit := rest, trace := s.trace ++ [(url, false)] } := by
  refine ⟨?_, crawlStep_eq_fail env s url rest hts hv hf⟩
  have h := crawlIter_inv env n (initState env) (by simp [initState, successfulFetches])
  rw [← h.1]
  exact h.2

/-- Witness: a concrete failing-fetch state under `envC1`. -/
theorem crawl_failure_skip_no_success_refetch_witness :
    ((⟨["http://b/u"], [], [], [], 0, 0⟩ : CrawlState).to_visit = "http://b/u" :: [] ∧
     "http://b/u" ∉ (⟨["http://b/u"], [], [], [], 0, 0⟩ : CrawlState).visited_urls ∧
     envC1.fetch (⟨["http://b/u"], [], [], [], 0, 0⟩ : CrawlState).trace.length
       "http://b/u" = none) ∧
    ((successfulFetches (crawlIter envC1 4 (initState envC1)).trace).Nodup ∧
     crawlStep envC1 ⟨["http://b/u"], [], [], [], 0, 0⟩ =
       { (⟨["http://b/u"], [], [], [], 0, 0⟩ : CrawlState) with
           to_visit := [],
           trace := (⟨["http://b/u"], [], [], [], 0, 0⟩ : CrawlState).trace ++
             [("http://b/u", false)] }) :=
  ⟨⟨rfl, by decide, by decide⟩,
   crawl_failure_skip_no_success_refetch envC1 4 ⟨["http://b/u"], [], [], [], 0, 0⟩
     "http://b/u" [] rfl (by decide) (by decide)⟩

/-- C1 (counterexample): under `envC1` the URL `http://b/u` — whose fetches
always exhaust their retries — is fetched twice in one crawl run (it is
re-discovered on page `c` and re-queued), and it is never marked visited,
contradicting the claim that no URL is fetched twice and that a
retries-exhausted URL is marked visited. -/
theorem crawl_url_fetched_twice :
    (((crawlIter envC1 10 (initState envC1)).trace.map Prod.fst).count "http://b/u" = 2) ∧
    "http://b/u" ∉ (crawlIter envC1 10 (initState envC1)).visited_urls := by
  decide

/-- Membership in the frontier after the offer loop of one page: a link ends
up queued iff it was already queued or it was discovered and not visited. -/
theorem offerLinks_mem (visited : List String) :
    ∀ (links to_visit : List String) (l : String),
      l ∈ offerLinks visited to_visit links ↔
        l ∈ to_visit ∨ (l ∈ links ∧ l ∉ visited) := by
  intro links
  induction links with
  | nil =>
    intro tv l
    simp [offerLinks]
  | cons x xs ih =>
    intro tv l
    show l ∈ offerLinks visited (if x ∉ visited ∧ x ∉ tv then tv ++ [x] else tv) xs ↔ _
    rw [ih]
    by_cases hx : x ∉ visited ∧ x ∉ tv
    · rw [if_pos hx]
      simp only [List.mem_append, List.mem_cons, List.not_mem_nil, or_false]
      constructor
      · rintro ((htv | rfl) | ⟨hxs, hnv⟩)
        · exact Or.inl htv
        · exact Or.inr ⟨Or.inl rfl, hx.1⟩
        · exact Or.inr ⟨Or.inr hxs, hnv⟩
      · rintro (htv | ⟨(rfl | hxs), hnv⟩)
        · exact Or.inl (Or.inl htv)
        · exact Or.inl (Or.inr rfl)
        · exact Or.inr ⟨hxs, hnv⟩
    · rw [if_neg hx]
      simp only [List.mem_cons]
      constructor
      · rintro (htv | ⟨hxs, hnv⟩)
        · exact Or.inl htv
        · exact Or.inr ⟨Or.inr hxs, hnv⟩
      · rintro (htv | ⟨(rfl | hxs), hnv⟩)
        · exact Or.inl htv
        · rcases not_and_or.mp hx with h1 | h2
          · exact absurd (not_not.mp h1) hnv
          · exact Or.inl (not_not.mp h2)
        · exact Or.inr ⟨hxs, hnv⟩

/-- Membership in the output of `extract_links`: a URL is extracted iff some
href produces it — the href is nonempty, not an anchor, not a `javascript:`
link, resolves to it, and the resolution carries the base-URL prefix. -/
theorem extract_links_mem (urljoin : String → String → String) (self_base_url : String)
    (hrefs : List String) (base_url : String) (l : String) :
    l ∈ extract_links urljoin self_base_url hrefs base_url ↔
      ∃ href, href ∈ hrefs ∧
        ¬(href = "" ∨ strStartsWith href "#" ∨ strStartsWith href "javascript:") ∧
        urljoin base_url href = l ∧ strStartsWith l self_base_url := by
  simp only [extract_links, List.mem_filterMap]
  constructor
  · rintro ⟨href, hmem, hsome⟩
    by_cases hskip : href = "" ∨ strStartsWith href "#" ∨ strStartsWith href "javascript:"
    · rw [if_pos hskip] at hsome
      cases hsome
    · rw [if_neg hskip] at hsome
      by_cases hsw : strStartsWith (urljoin base_url href) self_base_url
      · rw [if_pos hsw] at hsome
        have hj := Option.some.inj hsome
        exact ⟨href, hmem, hskip, hj, hj ▸ hsw⟩
      · rw [if_neg hsw] at hsome
        cases hsome
  · rintro ⟨href, hmem, hskip, hj, hsw⟩
    refine ⟨href, hmem, ?_⟩
    rw [if_neg hskip, if_pos (hj ▸ hsw : strStartsWith (urljoin base_url href) self_base_url)]
    rw [hj]

/-- C9 (amended): on a successfully fetched, non-duplicate page, a link is
enqueued iff it was already queued, or some href of the page survives the
skip rules (nonempty, not `#…`, not `javascript:…`), resolves to it with the
base-URL prefix, and it is not yet visited; `extract_links` is characterised
by exactly the skip rules plus prefix containment. -/
theorem link_filter_amended (env : CrawlEnv) (s : CrawlState) (url : String)
    (rest : List String) (page : Page) (hts : s.to_visit = url :: rest)
    (hv : url ∉ s.visited_urls) (hf : env.fetch s.trace.length url = some page)
    (hd : (is_duplicate env.md5 s.content_hashes page.text).1 = false) :
    (∀ l, l ∈ (crawlStep env s).to_visit ↔
        l ∈ rest ∨
          (l ∈ extract_links env.urljoin env.base_url page.hrefs url ∧
           l ∉ s.visited_urls ++ [url])) ∧
    (∀ l, l ∈ extract_links env.urljoin env.base_url page.hrefs url ↔
        ∃ href, href ∈ page.hrefs ∧
          ¬(href = "" ∨ strStartsWith href "#" ∨ strStartsWith href "javascript:") ∧
          env.urljoin url href = l ∧ strStartsWith l env.base_url) := by
  constructor
  · intro l
    rw [crawlStep_eq_success env s url rest page hts hv hf hd]
    exact offerLinks_mem _ _ _ l
  · intro l
    exact extract_links_mem _ _ _ _ l

/-- Witness: the first iteration of `envC1`'s crawl offers both in-domain links. -/
theorem link_filter_amended_witness :
    ((initState envC1).to_visit = "http://b/" :: [] ∧
     "http://b/" ∉ (initState envC1).visited_urls ∧
     envC1.fetch (initState envC1).trace.length "http://b/" =
       some ⟨["http://b/u", "http://b/c"], "A"⟩ ∧
     (is_duplicate envC1.md5 (initState envC1).content_hashes
       (Page.mk ["http://b/u", "http://b/c"] "A").text).1 = false) ∧
    ((∀ l, l ∈ (crawlStep envC1 (initState envC1)).to_visit ↔
        l ∈ [] ∨
          (l ∈ extract_links envC1.urljoin envC1.base_url
             (Page.mk ["http://b/u", "http://b/c"] "A").hrefs "http://b/" ∧
           l ∉ (initState envC1).visited_urls ++ ["http://b/"])) ∧
     (∀ l, l ∈ extract_links envC1.urljoin envC1.base_url
         (Page.mk ["http://b/u", "http://b/c"] "A").hrefs "http://b/" ↔
        ∃ href, href ∈ (Page.mk ["http://b/u", "http://b/c"] "A").hrefs ∧
          ¬(href = "" ∨ strStartsWith href "#" ∨ strStartsWith href "javascript:") ∧
          envC1.urljoin "http://b/" href = l ∧ strStartsWith l envC1.base_url)) :=
  ⟨⟨rfl, by decide, by decide, by decide⟩,
   link_filter_amended envC1 (initState envC1) "http://b/" []
     ⟨["http://b/u", "http://b/c"], "A"⟩ rfl (by decide) (by decide) (by decide)⟩

/-- C9 (counterexample): under `envC9` the anchor href `#x` discovered on the
seed page resolves to `http://b/#x`, which starts with the base URL and is
neither visited nor queued, yet nothing is enqueued — the skip rules for
empty/anchor/javascript hrefs are part of the filtering policy, refuting the
claimed "enqueued iff resolved form starts with the base URL and not
visited/queued". -/
theorem anchor_link_never_offered :
    strStartsWith (urljoin9 "http://b/" "#x") "http://b/" = true ∧
    "http://b/#x" ∉ (initState envC9).visited_urls ∧
    "http://b/#x" ∉ (initState envC9).to_visit ∧
    envC9.fetch 0 "http://b/" = some ⟨["#x"], "A"⟩ ∧
    (crawlStep envC9 (initState envC9)).to_visit = [] := by
  decide

/-! # Streaming persistence theorems -/

/-- Reading back a freshly written object returns its body. -/
theorem getObject_putObject {β : Type} (key : String) (body : β) (st : S3State β) :
    getObject key (putObject key body st) = some body := by
  simp only [getObject, putObject, List.reverse_append, List.reverse_cons, List.reverse_nil,
    List.nil_append, List.singleton_append]
  rw [List.find?_cons_of_pos _ (by simp)]
  rfl

/-- A completion request listing zero parts is always rejected. -/
theorem complete_nil_parts {β : Type} (combine : List β → β) (uid : Nat) (st : S3State β) :
    complete_multipart_upload combine uid [] st = .error () := by
  unfold complete_multipart_upload
  cases h : st.sessions.find? (fun ses => ses.uploadId == uid) with
  | none => rfl
  | some ses => simp

/-- While the running buffer stays under the 5 MB threshold, the streaming
loop uploads nothing: it only accumulates the records. -/
theorem ptdLoop_small (dumps : α → String) (size : α → Nat) (partErr : Nat → Bool)
    (uid : Nat) :
    ∀ (rs buffer : List α) (parts : List Nat) (pn buffer_size : Nat) (st : S3State Gz),
      buffer_size + (rs.map size).sum < s3_max_buffer_size →
      ptdLoop dumps size partErr uid rs parts pn buffer buffer_size st =
        .ok (parts, pn, buffer ++ rs, buffer_size + (rs.map size).sum, st) := by
  intro rs
  induction rs with
  | nil =>
    intro buffer parts pn bs st _
    simp [ptdLoop]
  | cons r rs ih =>
    intro buffer parts pn bs st h
    simp only [List.map_cons, List.sum_cons] at h
    have hlt : ¬ s3_max_buffer_size ≤ bs + size r := by omega
    simp only [ptdLoop, if_neg hlt]
    rw [ih (buffer ++ [r]) parts pn (bs + size r) st (by omega)]
    simp [List.append_assoc, Nat.add_assoc]

/-- An all-success streaming run from the empty bucket whose records fit in one
part commits exactly the gzipped JSON array of all the records. -/
theorem stream_ptd_single_part (dumps : α → String) (size : α → Nat) (key : String)
    (records : List α) (hne : records ≠ [])
    (hsmall : (records.map size).sum < s3_max_buffer_size) :
    stream_processed_text_data dumps size (fun _ => false) false key records S3State.empty =
      (.ok key, ⟨[(key, gzip_compress (jsonDumpsList dumps records))], [], 1⟩) := by
  have hloop := ptdLoop_small dumps size (fun _ => false) 0 records [] [] 1 0
      ⟨[], [⟨0, key, []⟩], 1⟩ (by simpa using hsmall)
  have hie : records.isEmpty = false := by
    cases records with
    | nil => exact absurd rfl hne
    | cons r rs => rfl
  simp only [List.nil_append, Nat.zero_add] at hloop
  simp only [stream_processed_text_data, create_multipart_upload, S3State.empty,
    List.nil_append, Nat.zero_add]
  rw [hloop]
  simp only [hie, Bool.false_eq_true, if_false]
  simp [upload_part, complete_multipart_upload, abort_multipart_upload, putObject,
    getObject, gzJoin, gzip_compress, List.find?, handleStreamError]

/-- C4 (amended): starting from an empty bucket, persisting `N ≥ 1` records
through the streaming multipart channel produces, when the records fit within
one part (total measured size below the 5 MB threshold), an object whose
decompressed content is byte-identical to the whole-object write of the same
records.  (The counterexample shows the equivalence fails as soon as the
threshold forces a second part.) -/
theorem streaming_vs_whole_write_amended (dumps : α → String) (size : α → Nat)
    (key : String) (records : List α) (hne : records ≠ [])
    (hsmall : (records.map size).sum < s3_max_buffer_size) :
    (getObject key (stream_processed_text_data dumps size (fun _ => false) false key records
        S3State.empty).2).map gzip_decompress = some (jsonDumpsList dumps records) ∧
    (getObject key (store_processed_text_data (jsonDumpsList dumps) key records
        S3State.empty).2).map gzip_decompress = some (jsonDumpsList dumps records) := by
  constructor
  · rw [stream_ptd_single_part dumps size key records hne hsmall]
    show (getObject key (putObject key (gzip_compress (jsonDumpsList dumps records))
      ⟨[], [], 1⟩)).map gzip_decompress = _
    rw [getObject_putObject]
    simp [gzip_decompress, gzip_compress, String.join]
  · show (getObject key (putObject key (gzip_compress (jsonDumpsList dumps records))
      S3State.empty)).map gzip_decompress = _
    rw [getObject_putObject]
    simp [gzip_decompress, gzip_compress, String.join]

/-- Witness: two records of measured size 1 each stream into a single part
whose decompressed content agrees with the whole-object write. -/
theorem streaming_vs_whole_write_amended_witness :
    (([1, 2] : List Nat) ≠ [] ∧ (([1, 2] : List Nat).map (fun _ => 1)).sum < s3_max_buffer_size) ∧
    ((getObject "k" (stream_processed_text_data Nat.repr (fun _ => 1) (fun _ => false) false "k"
        [1, 2] S3State.empty).2).map gzip_decompress = some (jsonDumpsList Nat.repr [1, 2]) ∧
     (getObject "k" (store_processed_text_data (jsonDumpsList Nat.repr) "k" [1, 2]
        S3State.empty).2).map gzip_decompress = some (jsonDumpsList Nat.repr [1, 2])) :=
  ⟨⟨by decide, by decide⟩,
   streaming_vs_whole_write_amended Nat.repr (fun _ => 1) "k" [1, 2] (by decide) (by decide)⟩

/-- C4 (counterexample): two records whose measured size reaches the threshold
are flushed as two separate parts; the stored object decompresses to
`"[1][2]"` — the concatenation of two JSON arrays — while the whole-object
write of the same records decompresses to `"[1, 2]"`: the contents are not
byte-identical (the claim fails for any run producing more than one part). -/
theorem streaming_multipart_not_equivalent :
    (getObject "k" (stream_processed_text_data Nat.repr (fun _ => s3_max_buffer_size)
        (fun _ => false) false "k" [1, 2] S3State.empty).2).map gzip_decompress =
      some "[1][2]" ∧
    (getObject "k" (store_processed_text_data (jsonDumpsList Nat.repr) "k" [1, 2]
        S3State.empty).2).map gzip_decompress = some "[1, 2]" ∧
    (getObject "k" (stream_processed_text_data Nat.repr (fun _ => s3_max_buffer_size)
        (fun _ => false) false "k" [1, 2] S3State.empty).2).map gzip_decompress ≠
    (getObject "k" (store_processed_text_data (jsonDumpsList Nat.repr) "k" [1, 2]
        S3State.empty).2).map gzip_decompress := by
  decide

/-- C3 (code bug): when the upload of part 1 raises, the handler's guard
`'UploadId' in locals()` is false — no local variable carries that name, the
upload id lives in the dict `mpu` — so `abort_multipart_upload` is never
called: the error is re-raised and no object exists at the key, but the
multipart session is left open with its parts instead of being aborted. -/
theorem stream_part_error_session_not_aborted :
    upload_id_in_locals = false ∧
    upload_id_in_raw_locals = false ∧
    (stream_processed_text_data Nat.repr (fun _ => s3_max_buffer_size) (fun n => n == 1) false
       "k" [7] S3State.empty).1 = Except.error () ∧
    getObject "k" (stream_processed_text_data Nat.repr (fun _ => s3_max_buffer_size)
       (fun n => n == 1) false "k" [7] S3State.empty).2 = none ∧
    (stream_processed_text_data Nat.repr (fun _ => s3_max_buffer_size) (fun n => n == 1) false
       "k" [7] S3State.empty).2.sessions = [⟨0, "k", []⟩] := by
  decide

/-- C6 (amended): with zero records, `stream_raw_data` is a genuine no-op — it
returns the key with the bucket untouched — but `stream_processed_text_data`
is not: it opens a multipart session unconditionally and then issues a
completion with zero parts, which the storage service rejects, so the call
returns an error (and, the abort guard being dead, leaves the session open);
no object is created at the key in either case. -/
theorem stream_zero_records_amended {α α' : Type} (gz : String → List Nat)
    (dumps : List α → String) (partErr : Nat → Bool) (completeErr : Bool)
    (straw : S3State (List Nat)) (dumps' : α' → String) (size' : α' → Nat)
    (partErr' : Nat → Bool) (completeErr' : Bool) (key key' : String) (st : S3State Gz) :
    stream_raw_data gz dumps partErr completeErr key ([] : List α) straw = (.ok key, straw) ∧
    (stream_processed_text_data dumps' size' partErr' completeErr' key' ([] : List α') st).1 =
      .error () ∧
    (stream_processed_text_data dumps' size' partErr' completeErr' key' ([] : List α') st).2 =
      { st with sessions := st.sessions ++ [⟨st.nextUploadId, key', []⟩],
                nextUploadId := st.nextUploadId + 1 } := by
  refine ⟨by simp [stream_raw_data], ?_⟩
  have hdead : upload_id_in_locals = false := rfl
  simp only [stream_processed_text_data, create_multipart_upload, ptdLoop, List.isEmpty_nil,
    if_true]
  cases completeErr' with
  | true =>
    simp [handleStreamError, hdead]
  | false =>
    rw [if_neg (by simp)]
    rw [complete_nil_parts]
    simp [handleStreamError, hdead]

/-- C6 (counterexample): a zero-record streaming call on the text-processed
channel does not finish as a no-op: it returns an error and has opened a
multipart session. -/
theorem stream_ptd_zero_records_not_noop :
    (stream_processed_text_data Nat.repr (fun _ => 1) (fun _ => false) false "k"
       ([] : List Nat) S3State.empty).1 = Except.error () ∧
    (stream_processed_text_data Nat.repr (fun _ => 1) (fun _ => false) false "k"
       ([] : List Nat) S3State.empty).2.sessions ≠ [] := by
  decide

end WebCrawl
